import Mathlib

/-!
Verification development for the maphub OpenDRIVE core
(`src/core/src/odr`): a shallow embedding, over the real numbers, of the
road coordinate evaluator (`OdrRoad::sth_to_xyz` and its profile
lookups), the plan-view geometry evaluation (`OdrRoadGeometry::eval_at`),
the lane mesh builder (`LaneMeshBuilder`), the lane-section cumulative
width (`OdrLaneSection::calculate_inner_offset`), the map center
(`OpenDrive::compute_center`) and the road-mark default pattern
synthesis (`RoadMarkMeshBuilder::get_default_lines_for_type`).

Machine floats (`f64`, `f32`) are modelled as real numbers; `u16` mesh
indices are modelled as naturals reduced modulo 2^16 exactly where the
Rust code truncates or wraps.  Fallible evaluation — Rust code that can
`panic!` / `expect` / `unwrap` — is modelled with `Option`, `none`
standing for the abort.
-/

open scoped Classical

noncomputable section

/-- 3-vector of `f64` (`src/core/src/math/vec3.rs`). -/
structure Vec3 where
  x : ℝ
  y : ℝ
  z : ℝ
deriving DecidableEq

/-- `Vec3::sub`. -/
def Vec3.sub (a b : Vec3) : Vec3 :=
  ⟨a.x - b.x, a.y - b.y, a.z - b.z⟩

/-- `Vec3::cross`. -/
def Vec3.cross (a b : Vec3) : Vec3 :=
  ⟨a.y * b.z - a.z * b.y, a.z * b.x - a.x * b.z, a.x * b.y - a.y * b.x⟩

/-- A reference-line sample: position and tangent heading
(`PosHdg`, `src/core/src/odr/models/road/road_geometry.rs`). -/
structure PosHdg where
  x : ℝ
  y : ℝ
  hdg : ℝ

/-- The four plan-view geometry kinds (`OdrRoadGeometryKind`). -/
inductive OdrRoadGeometryKind where
  | Line
  | Spiral
  | Arc
  | ParamPoly3
deriving DecidableEq

/-- `pRange` attribute of a paramPoly3 geometry (`OdrParamPoly3PRange`). -/
inductive OdrParamPoly3PRange where
  | ArcLength
  | Normalized
deriving DecidableEq

/-- One plan-view geometry segment (`OdrRoadGeometry`): the common header
`(s, x, y, hdg, length)` plus optional per-variant fields, exactly as the
flat Rust struct stores them. -/
structure OdrRoadGeometry where
  s : ℝ
  x : ℝ
  y : ℝ
  hdg : ℝ
  length : ℝ
  kind : OdrRoadGeometryKind
  curv_start : Option ℝ := none
  curv_end : Option ℝ := none
  curvature : Option ℝ := none
  a_u : Option ℝ := none
  a_v : Option ℝ := none
  b_u : Option ℝ := none
  b_v : Option ℝ := none
  c_u : Option ℝ := none
  c_v : Option ℝ := none
  d_u : Option ℝ := none
  d_v : Option ℝ := none
  p_range : Option OdrParamPoly3PRange := none

namespace OdrRoadGeometry

/-- `OdrRoadGeometry::eval_line`. -/
def eval_line (g : OdrRoadGeometry) (ds : ℝ) : PosHdg :=
  ⟨g.x + ds * Real.cos g.hdg, g.y + ds * Real.sin g.hdg, g.hdg⟩

/-- `OdrRoadGeometry::eval_arc`: zero curvature degrades to a line;
otherwise the point is placed at angle `(hdg + π/2) + θ` from the circle
center computed one radius along `hdg + π/2`. -/
def eval_arc (g : OdrRoadGeometry) (ds : ℝ) : PosHdg :=
  let curv := g.curvature.getD 0
  if |curv| < 1e-15 then g.eval_line ds
  else
    let radius := 1 / curv
    let theta := ds * curv
    let center_angle := g.hdg + Real.pi / 2
    let cx := g.x + radius * Real.cos center_angle
    let cy := g.y + radius * Real.sin center_angle
    ⟨cx + radius * Real.cos (center_angle + theta),
     cy + radius * Real.sin (center_angle + theta),
     g.hdg + theta⟩

/-- `OdrRoadGeometry::integrate_spiral`: composite Simpson integration of
`(cos θ(u), sin θ(u))` with `N = 100` sub-intervals. -/
def integrate_spiral (ds curv_start curv_rate : ℝ) : ℝ × ℝ × ℝ :=
  let step := ds / 100
  let theta := fun (u : ℝ) => curv_start * u + 0.5 * curv_rate * u * u
  let xy := (List.range 100).foldl
    (fun (acc : ℝ × ℝ) i =>
      let s0 := (i : ℝ) * step
      let s1 := s0 + step * 0.5
      let s2 := s0 + step
      (acc.1 + step / 6 * (Real.cos (theta s0) + 4 * Real.cos (theta s1) + Real.cos (theta s2)),
       acc.2 + step / 6 * (Real.sin (theta s0) + 4 * Real.sin (theta s1) + Real.sin (theta s2))))
    (0, 0)
  (xy.1, xy.2, curv_start * ds + 0.5 * curv_rate * ds * ds)

/-- `OdrRoadGeometry::eval_spiral`. -/
def eval_spiral (g : OdrRoadGeometry) (ds : ℝ) : PosHdg :=
  let curv_start := g.curv_start.getD 0
  let curv_end := g.curv_end.getD 0
  let curv_rate := if g.length > 1e-15 then (curv_end - curv_start) / g.length else 0
  let r := integrate_spiral ds curv_start curv_rate
  let cos_hdg := Real.cos g.hdg
  let sin_hdg := Real.sin g.hdg
  ⟨g.x + r.1 * cos_hdg - r.2.1 * sin_hdg,
   g.y + r.1 * sin_hdg + r.2.1 * cos_hdg,
   g.hdg + r.2.2⟩

/-- `OdrRoadGeometry::eval_param_poly3`. -/
def eval_param_poly3 (g : OdrRoadGeometry) (ds : ℝ) : PosHdg :=
  let a_u := g.a_u.getD 0
  let b_u := g.b_u.getD 0
  let c_u := g.c_u.getD 0
  let d_u := g.d_u.getD 0
  let a_v := g.a_v.getD 0
  let b_v := g.b_v.getD 0
  let c_v := g.c_v.getD 0
  let d_v := g.d_v.getD 0
  let p := match g.p_range with
    | some OdrParamPoly3PRange.Normalized => if g.length > 1e-15 then ds / g.length else 0
    | _ => ds
  let p2 := p * p
  let p3 := p2 * p
  let local_u := a_u + b_u * p + c_u * p2 + d_u * p3
  let local_v := a_v + b_v * p + c_v * p2 + d_v * p3
  let du_dp := b_u + 2 * c_u * p + 3 * d_u * p2
  let dv_dp := b_v + 2 * c_v * p + 3 * d_v * p2
  let local_hdg := Complex.arg ⟨du_dp, dv_dp⟩
  let cos_hdg := Real.cos g.hdg
  let sin_hdg := Real.sin g.hdg
  ⟨g.x + local_u * cos_hdg - local_v * sin_hdg,
   g.y + local_u * sin_hdg + local_v * cos_hdg,
   g.hdg + local_hdg⟩

/-- `OdrRoadGeometry::eval_at`: dispatch on the geometry kind. -/
def eval_at (g : OdrRoadGeometry) (ds : ℝ) : PosHdg :=
  match g.kind with
  | OdrRoadGeometryKind.Line => g.eval_line ds
  | OdrRoadGeometryKind.Arc => g.eval_arc ds
  | OdrRoadGeometryKind.Spiral => g.eval_spiral ds
  | OdrRoadGeometryKind.ParamPoly3 => g.eval_param_poly3 ds

end OdrRoadGeometry

/-- The rightmost element of the list whose key is `≤ s`; this is
the Rust idiom `entries.iter().filter(|e| key(e) <= s).last()` used by
every picewise profile lookup in the repository. -/
def lastLE {α : Type} (key : α → ℝ) (s : ℝ) : List α → Option α
  | [] => none
  | e :: rest =>
    match lastLE key s rest with
    | some r => some r
    | none => if key e ≤ s then some e else none

/-- Elevation profile entry (`OdrRoadElevation`). -/
structure OdrRoadElevation where
  s : ℝ
  a : ℝ
  b : ℝ
  c : ℝ
  d : ℝ

/-- Superelevation profile entry (`OdrSuperelevation`). -/
structure OdrSuperelevation where
  s : ℝ
  a : ℝ
  b : ℝ
  c : ℝ
  d : ℝ

/-- Lane-offset profile entry (`OdrLaneOffset`). -/
structure OdrLaneOffset where
  s : ℝ
  a : ℝ
  b : ℝ
  c : ℝ
  d : ℝ

/-- Lateral shape entry (`OdrShape`, `src/core/src/odr/models/road/shape.rs`). -/
structure OdrShape where
  s : ℝ
  t : ℝ
  a : ℝ
  b : ℝ
  c : ℝ
  d : ℝ

/-- `OdrShape::evaluate`: the cubic in `dt = t_query - t`. -/
def OdrShape.evaluate (sh : OdrShape) (t_query : ℝ) : ℝ :=
  let dt := t_query - sh.t
  sh.a + sh.b * dt + sh.c * dt * dt + sh.d * dt * dt * dt

/-- Lane width entry (`OdrLaneWidth`). -/
structure OdrLaneWidth where
  s_offset : ℝ
  a : ℝ
  b : ℝ
  c : ℝ
  d : ℝ

/-- `OdrLaneWidth::eval`: cubic at `local_ds`. -/
def OdrLaneWidth.eval (w : OdrLaneWidth) (local_ds : ℝ) : ℝ :=
  w.a + w.b * local_ds + w.c * local_ds ^ 2 + w.d * local_ds ^ 3

/-- `OdrLaneWidth::eval_widths`: guarded lookup — an empty width list
evaluates to `0`; otherwise the last entry with `s_offset ≤ ds`, falling
back to the first entry. -/
def OdrLaneWidth.eval_widths (widths : List OdrLaneWidth) (ds : ℝ) : ℝ :=
  match widths with
  | [] => 0
  | w0 :: _ =>
    let w := (lastLE (fun w => w.s_offset) ds widths).getD w0
    w.eval (ds - w.s_offset)

/-- Road-mark colors (`OdrRoadMarkColor`). -/
inductive OdrRoadMarkColor where
  | Black | Blue | Green | Orange | Red | Standard | Violet | White | Yellow
deriving DecidableEq

/-- Road-mark types (`OdrRoadMarkType`). -/
inductive OdrRoadMarkType where
  | BottsDots | BrokenBroken | BrokenSolid | Broken | Curb | Custom
  | Edge | Grass | None | SolidBroken | SolidSolid | Solid
deriving DecidableEq

/-- Sway entry of a road mark (`OdrRoadMarkSway`). -/
structure OdrRoadMarkSway where
  ds : ℝ
  a : ℝ
  b : ℝ
  c : ℝ
  d : ℝ

/-- One line of a `<type>` block (`OdrRoadMarkTypeLine`); fields not read
by the modelled functions are omitted. -/
structure OdrRoadMarkTypeLine where
  s_offset : ℝ
  length : ℝ
  space : ℝ
  t_offset : ℝ
  width : Option ℝ

/-- `<type>` block of a road mark (`OdrRoadMarkTypeDetail`). -/
structure OdrRoadMarkTypeDetail where
  width : ℝ
  lines : List OdrRoadMarkTypeLine

/-- One line of an `<explicit>` block (`OdrRoadMarkExplicitLine`). -/
structure OdrRoadMarkExplicitLine where
  s_offset : ℝ
  length : ℝ
  t_offset : ℝ
  width : Option ℝ

/-- `<explicit>` block of a road mark (`OdrRoadMarkExplicit`). -/
structure OdrRoadMarkExplicit where
  lines : List OdrRoadMarkExplicitLine

/-- A `<roadMark>` element (`OdrRoadMark`); string-typed metadata fields
not read by the modelled functions are omitted. -/
structure OdrRoadMark where
  s_offset : ℝ
  mark_type : OdrRoadMarkType
  color : OdrRoadMarkColor
  width : Option ℝ
  height : Option ℝ
  type_detail : Option OdrRoadMarkTypeDetail
  explicit : Option OdrRoadMarkExplicit
  sways : List OdrRoadMarkSway

/-- A lane (`OdrLane`); of the polynomial strips only `width` and the
road marks are read by the functions modelled here. -/
structure OdrLane where
  id : ℤ
  lane_type : String
  width : List OdrLaneWidth
  road_marks : List OdrRoadMark

/-- A lane section (`OdrLaneSection`). -/
structure OdrLaneSection where
  s : ℝ
  single_side : Option Bool
  left : List OdrLane
  right : List OdrLane
  center : OdrLane

/-- `OdrLaneSection::calculate_inner_offset`: signed cumulative width of
the lanes strictly between the centerline and `lane_id`, accumulated in
storage order with the total `eval_widths`. -/
def OdrLaneSection.calculate_inner_offset (sec : OdrLaneSection) (lane_id : ℤ) (s : ℝ) : ℝ :=
  let ds := s - sec.s
  if lane_id > 0 then
    sec.left.foldl
      (fun offset other_lane =>
        if other_lane.id > 0 ∧ other_lane.id < lane_id then
          offset + OdrLaneWidth.eval_widths other_lane.width ds
        else offset) 0
  else if lane_id < 0 then
    sec.right.foldl
      (fun offset other_lane =>
        if other_lane.id < 0 ∧ other_lane.id > lane_id then
          offset - OdrLaneWidth.eval_widths other_lane.width ds
        else offset) 0
  else 0

/-- A road (`OdrRoad`); link/type metadata not read by the evaluator is
omitted. -/
structure OdrRoad where
  id : String
  junction : String
  length : ℝ
  plan_view : List OdrRoadGeometry
  elevations : List OdrRoadElevation
  superelevations : List OdrSuperelevation
  shapes : List OdrShape
  lanes : List OdrLaneSection
  lane_offsets : List OdrLaneOffset

namespace OdrRoad

/-- `OdrRoad::eval_reference_line`: the last geometry with `g.s ≤ s`,
falling back to the first geometry; the `expect` on an empty `planView`
is the `none` case. -/
def eval_reference_line (road : OdrRoad) (s : ℝ) : Option PosHdg :=
  ((lastLE (fun g => g.s) s road.plan_view).or road.plan_view.head?).map
    (fun geom => geom.eval_at (s - geom.s))

/-- `OdrRoad::eval_elevation`: `0` when no entry precedes `s`. -/
def eval_elevation (road : OdrRoad) (s : ℝ) : ℝ :=
  match lastLE (fun e => e.s) s road.elevations with
  | some e => let ds := s - e.s; e.a + e.b * ds + e.c * ds ^ 2 + e.d * ds ^ 3
  | none => 0

/-- `OdrRoad::eval_superelevation`: `0` when no entry precedes `s`. -/
def eval_superelevation (road : OdrRoad) (s : ℝ) : ℝ :=
  match lastLE (fun e => e.s) s road.superelevations with
  | some e => let ds := s - e.s; e.a + e.b * ds + e.c * ds ^ 2 + e.d * ds ^ 3
  | none => 0

/-- `OdrRoad::eval_lane_offset`: `0` when no entry precedes `s`. -/
def eval_lane_offset (road : OdrRoad) (s : ℝ) : ℝ :=
  match lastLE (fun o => o.s) s road.lane_offsets with
  | some o => let ds := s - o.s; o.a + o.b * ds + o.c * ds ^ 2 + o.d * ds ^ 3
  | none => 0

/-- `OdrRoad::sth_to_xyz`: road coordinates to Cartesian.  The lateral
offset is applied along the left-hand normal `hdg + π/2` and
`z = eval_elevation + t·tan(eval_superelevation) + h`; `none` is the
panic on an empty `planView`. -/
def sth_to_xyz (road : OdrRoad) (s t h : ℝ) : Option Vec3 :=
  (road.eval_reference_line s).map fun pos_hdg =>
    let base_z := road.eval_elevation s
    let roll := road.eval_superelevation s
    let normal := pos_hdg.hdg + Real.pi / 2
    ⟨pos_hdg.x + t * Real.cos normal,
     pos_hdg.y + t * Real.sin normal,
     base_z + t * Real.tan roll + h⟩

end OdrRoad

/-- Mesh output buffers (`MeshData`): `f32` vertices and normals as
reals, `u16` indices as naturals `< 2^16`. -/
structure MeshData where
  vertices : List ℝ
  indices : List ℕ
  normals : List ℝ

namespace LaneMeshBuilder

/-- `LaneMeshBuilder::eval_lane_width`
(`src/core/src/odr/mesh/lane_builder.rs`): the last entry with
`s_offset ≤ ds`, falling back to `widths.first().unwrap()` — `none` is
the panic on an empty width list. -/
def eval_lane_width (widths : List OdrLaneWidth) (ds : ℝ) : Option ℝ :=
  ((lastLE (fun w => w.s_offset) ds widths).or widths.head?).map fun width =>
    let local_ds := ds - width.s_offset
    width.a + width.b * local_ds + width.c * local_ds ^ 2 + width.d * local_ds ^ 3

/-- `LaneMeshBuilder::calculate_inner_offset`: like the section-level
version but accumulating with the fallible `eval_lane_width`. -/
def calculate_inner_offset (lane_id : ℤ) (sec : OdrLaneSection) (s : ℝ) : Option ℝ :=
  let ds := s - sec.s
  if lane_id > 0 then
    sec.left.foldl
      (fun acc other_lane =>
        if other_lane.id > 0 ∧ other_lane.id < lane_id then
          acc.bind fun offset => (eval_lane_width other_lane.width ds).map (offset + ·)
        else acc) (some 0)
  else if lane_id < 0 then
    sec.right.foldl
      (fun acc other_lane =>
        if other_lane.id < 0 ∧ other_lane.id > lane_id then
          acc.bind fun offset => (eval_lane_width other_lane.width ds).map (offset - ·)
        else acc) (some 0)
  else some 0

/-- `LaneMeshBuilder::get_lane_t_bounds`: `(t_inner, t_outer)` of `lane`
at station `s`. -/
def get_lane_t_bounds (lane : OdrLane) (sec : OdrLaneSection) (road : OdrRoad) (s : ℝ) :
    Option (ℝ × ℝ) :=
  let ds := s - sec.s
  (eval_lane_width lane.width ds).bind fun width =>
    let lane_offset := road.eval_lane_offset s
    (calculate_inner_offset lane.id sec s).map fun inner =>
      let t_inner := inner + lane_offset
      let t_outer := if lane.id > 0 then t_inner + width else t_inner - width
      (t_inner, t_outer)

/-- `LaneMeshBuilder::generate_indices`: triangle-strip indices; the
`as u16` truncation and release-mode wrapping addition are the
`% 2 ^ 16` reductions. -/
def generate_indices (num_samples : ℕ) : List ℕ :=
  (List.range (num_samples - 1)).flatMap fun i =>
    let base := (i * 2) % 2 ^ 16
    [base, (base + 1) % 2 ^ 16, (base + 2) % 2 ^ 16,
     (base + 1) % 2 ^ 16, (base + 3) % 2 ^ 16, (base + 2) % 2 ^ 16]

/-- `indices.chunks(3)` restricted to full triangles. -/
def triple_chunks : List ℕ → List (ℕ × ℕ × ℕ)
  | a :: b :: c :: rest => (a, b, c) :: triple_chunks rest
  | _ => []

/-- `normals[i] += v` of the accumulation loop. -/
def bump (l : List ℝ) (i : ℕ) (v : ℝ) : List ℝ :=
  l.set i (l.getD i 0 + v)

/-- Accumulate one face normal onto the three components of vertex slot `i`. -/
def bump3 (l : List ℝ) (i : ℕ) (n : Vec3) : List ℝ :=
  bump (bump (bump l i n.x) (i + 1) n.y) (i + 2) n.z

/-- The per-vertex normalization pass of `calculate_normals`: chunks of
three components are scaled to unit length, or replaced by the up vector
`(0, 1, 0)` when shorter than `1e-6`. -/
def normalize_normals : List ℝ → List ℝ
  | x :: y :: z :: rest =>
    let len := Real.sqrt (x ^ 2 + y ^ 2 + z ^ 2)
    if len > 1e-6 then x / len :: y / len :: z / len :: normalize_normals rest
    else 0 :: 1 :: 0 :: normalize_normals rest
  | l => l

/-- `LaneMeshBuilder::calculate_normals`: area-weighted face-normal
accumulation followed by per-vertex normalization. -/
def calculate_normals (vertices : List ℝ) (indices : List ℕ) : List ℝ :=
  let accumulated := (triple_chunks indices).foldl
    (fun nrm tri =>
      let i0 := tri.1 * 3
      let i1 := tri.2.1 * 3
      let i2 := tri.2.2 * 3
      let v0 : Vec3 := ⟨vertices.getD i0 0, vertices.getD (i0 + 1) 0, vertices.getD (i0 + 2) 0⟩
      let v1 : Vec3 := ⟨vertices.getD i1 0, vertices.getD (i1 + 1) 0, vertices.getD (i1 + 2) 0⟩
      let v2 : Vec3 := ⟨vertices.getD i2 0, vertices.getD (i2 + 1) 0, vertices.getD (i2 + 2) 0⟩
      let normal := (v1.sub v0).cross (v2.sub v0)
      bump3 (bump3 (bump3 nrm i0 normal) i1 normal) i2 normal)
    (List.replicate vertices.length 0)
  normalize_normals accumulated

/-- One loop iteration of `build_lane_mesh`: the six vertex components
pushed for sample station `s` — both boundary points mapped through
`sth_to_xyz` and converted to the Y-up frame `(x, y, z) → (x, z, -y)`. -/
def build_sample (road : OdrRoad) (sec : OdrLaneSection) (lane : OdrLane) (s : ℝ) :
    Option (List ℝ) :=
  (get_lane_t_bounds lane sec road s).bind fun tb =>
    (road.sth_to_xyz s tb.1 0).bind fun inner_point =>
      (road.sth_to_xyz s tb.2 0).map fun outer_point =>
        [inner_point.x, inner_point.z, -inner_point.y,
         outer_point.x, outer_point.z, -outer_point.y]

/-- The sample count of `build_lane_mesh`:
`((length / sample_step).ceil() as usize).max(2)` — the saturating
float-to-`usize` cast is `Nat.ceil`. -/
def num_samples (sample_step length : ℝ) : ℕ :=
  max (⌈length / sample_step⌉₊) 2

/-- The `i`-th sample station of `build_lane_mesh`:
`s_start + (i / (num_samples - 1)) * length`. -/
def station (s_start length : ℝ) (n i : ℕ) : ℝ :=
  s_start + ((i : ℝ) / ((n - 1 : ℕ) : ℝ)) * length

/-- `LaneMeshBuilder::build_lane_mesh`: center lanes yield the empty
mesh; otherwise `max 2 ⌈length/step⌉` stations are sampled uniformly and
each contributes an inner/outer vertex pair; `none` is a panic on any
sample. -/
def build_lane_mesh (sample_step : ℝ) (road : OdrRoad) (sec : OdrLaneSection) (lane : OdrLane)
    (s_start s_end : ℝ) : Option MeshData :=
  if lane.id = 0 then some ⟨[], [], []⟩
  else
    let length := s_end - s_start
    let n := num_samples sample_step length
    ((List.range n).foldl
        (fun acc i =>
          acc.bind fun vs =>
            (build_sample road sec lane (station s_start length n i)).map fun block =>
              vs ++ block)
        (some [])).map fun vertices =>
      let indices := generate_indices n
      ⟨vertices, indices, calculate_normals vertices indices⟩

end LaneMeshBuilder

/-- Largest finite `f64`, the `f64::MAX` sentinel of `compute_center`. -/
def f64_max : ℝ := 2 ^ 1024 - 2 ^ 971

/-- `OpenDrive::compute_center`: midpoint of the bounding box of each
road's first-geometry origin, `(0,0,0)` when no road has a geometry.
The Rust `f64::MAX` / `f64::MIN` fold initialisers are kept verbatim. -/
def OpenDrive.compute_center (roads : List OdrRoad) : Vec3 :=
  if roads = [] then ⟨0, 0, 0⟩
  else
    let bb := roads.foldl
      (fun (acc : ℝ × ℝ × ℝ × ℝ) road =>
        match road.plan_view.head? with
        | some geom =>
          (min acc.1 geom.x, max acc.2.1 geom.x, min acc.2.2.1 geom.y, max acc.2.2.2 geom.y)
        | none => acc)
      (f64_max, -f64_max, f64_max, -f64_max)
    if bb.1 = f64_max then ⟨0, 0, 0⟩
    else ⟨(bb.1 + bb.2.1) / 2, (bb.2.2.1 + bb.2.2.2) / 2, 0⟩

namespace RoadMarkMeshBuilder

/-- Default line width (`DEFAULT_LINE_WIDTH`). -/
def DEFAULT_LINE_WIDTH : ℝ := 0.15

/-- Default broken line length (`DEFAULT_BROKEN_LENGTH`). -/
def DEFAULT_BROKEN_LENGTH : ℝ := 3.0

/-- Default broken line space (`DEFAULT_BROKEN_SPACE`). -/
def DEFAULT_BROKEN_SPACE : ℝ := 6.0

/-- Default gap between double lines (`DEFAULT_DOUBLE_LINE_GAP`). -/
def DEFAULT_DOUBLE_LINE_GAP : ℝ := 0.1

/-- Internal pattern line of the default synthesis (`DefaultLine`). -/
structure DefaultLine where
  t_offset : ℝ
  length : ℝ
  space : ℝ
  width : ℝ
deriving DecidableEq

/-- `RoadMarkMeshBuilder::eval_lane_width`
(`src/core/src/odr/mesh/road_mark_builder.rs`): guarded — empty width
lists evaluate to `0`. -/
def eval_lane_width (widths : List OdrLaneWidth) (ds : ℝ) : ℝ :=
  match widths with
  | [] => 0
  | w0 :: _ =>
    let width := (lastLE (fun w => w.s_offset) ds widths).getD w0
    let local_ds := ds - width.s_offset
    width.a + width.b * local_ds + width.c * local_ds ^ 2 + width.d * local_ds ^ 3

/-- `RoadMarkMeshBuilder::get_default_lines_for_type`: expand a bare
`markType` into its default pattern lines (solid lines carry the
`f64::MAX` sentinel length and `space = 0`). -/
def get_default_lines_for_type (road_mark : OdrRoadMark) : List DefaultLine :=
  let width := road_mark.width.getD DEFAULT_LINE_WIDTH
  let half_width := width / 2
  let gap := DEFAULT_DOUBLE_LINE_GAP
  match road_mark.mark_type with
  | OdrRoadMarkType.Solid | OdrRoadMarkType.Edge =>
    [⟨0, f64_max, 0, width⟩]
  | OdrRoadMarkType.Broken =>
    [⟨0, DEFAULT_BROKEN_LENGTH, DEFAULT_BROKEN_SPACE, width⟩]
  | OdrRoadMarkType.SolidSolid =>
    [⟨-(half_width + gap / 2), f64_max, 0, half_width⟩,
     ⟨half_width + gap / 2, f64_max, 0, half_width⟩]
  | OdrRoadMarkType.BrokenBroken =>
    [⟨-(half_width + gap / 2), DEFAULT_BROKEN_LENGTH, DEFAULT_BROKEN_SPACE, half_width⟩,
     ⟨half_width + gap / 2, DEFAULT_BROKEN_LENGTH, DEFAULT_BROKEN_SPACE, half_width⟩]
  | OdrRoadMarkType.SolidBroken =>
    [⟨-(half_width + gap / 2), f64_max, 0, half_width⟩,
     ⟨half_width + gap / 2, DEFAULT_BROKEN_LENGTH, DEFAULT_BROKEN_SPACE, half_width⟩]
  | OdrRoadMarkType.BrokenSolid =>
    [⟨-(half_width + gap / 2), DEFAULT_BROKEN_LENGTH, DEFAULT_BROKEN_SPACE, half_width⟩,
     ⟨half_width + gap / 2, f64_max, 0, half_width⟩]
  | OdrRoadMarkType.BottsDots =>
    [⟨0, 0.1, 0.3, 0.1⟩]
  | OdrRoadMarkType.None | OdrRoadMarkType.Grass
  | OdrRoadMarkType.Curb | OdrRoadMarkType.Custom => []

end RoadMarkMeshBuilder

/-- Modelled from the spec: the §4.5 lateral-shape evaluation
`evalShape(s, t)` that the specification's `sth → xyz` pipeline names as
step 4.  No function in `src/core` implements this composition —
`OdrShape::evaluate` has no caller — so the spec's wording is embedded
here for comparison with the source's `sth_to_xyz`: pick the entries
with the largest `shape.s ≤ s`, choose among them the last with
`shape.t ≤ t_q` (falling back to the first), and evaluate its cubic;
`0` when `shapes` is empty. -/
def evalShapeSpec (shapes : List OdrShape) (s t_q : ℝ) : ℝ :=
  match lastLE (fun sh => sh.s) s shapes with
  | none => 0
  | some anchor =>
    let group := shapes.filter fun sh => sh.s = anchor.s
    match (lastLE (fun sh => sh.t) t_q group).or group.head? with
    | some sh => sh.evaluate t_q
    | none => 0

/-- The vertex blocks produced by a run of fallible samples, concatenated
in order; the vertex-emission fold of `build_lane_mesh` is proved equal
to it. -/
def sampleSeq (f : ℕ → Option (List ℝ)) : List ℕ → Option (List ℝ)
  | [] => some []
  | i :: rest => (f i).bind fun b => (sampleSeq f rest).map fun bs => b ++ bs

/-! ### Concrete inputs used by witnesses and counterexamples -/

/-- A unit-length straight plan-view geometry starting at `(10, 20)`
with heading `0`. -/
def ex_geom : OdrRoadGeometry :=
  { s := 0, x := 10, y := 20, hdg := 0, length := 1, kind := OdrRoadGeometryKind.Line }

/-- A constant lane width of `1`. -/
def ex_width : OdrLaneWidth := ⟨0, 1, 0, 0, 0⟩

/-- A driving lane of id `1` and constant width `1`. -/
def ex_lane : OdrLane := ⟨1, "driving", [ex_width], []⟩

/-- A center lane (id `0`, no widths). -/
def ex_center : OdrLane := ⟨0, "none", [], []⟩

/-- A lane section at `s = 0` holding only `ex_lane` on the left. -/
def ex_sec : OdrLaneSection := ⟨0, none, [ex_lane], [], ex_center⟩

/-- A straight unit road whose first-geometry origin is `(10, 20)`. -/
def ex_road : OdrRoad := ⟨"1", "-1", 1, [ex_geom], [], [], [], [ex_sec], []⟩

/-- The vertex buffer `build_lane_mesh` emits for `ex_road` / `ex_lane`
over `[0, 1]` with step `1`. -/
def ex_verts : List ℝ := [10, 0, -20, 10, 0, -21, 11, 0, -20, 11, 0, -21]

/-- A straight road carrying one nonzero lateral shape entry
(`a = 1` at `s = 0, t = 0`). -/
def shape_road : OdrRoad :=
  ⟨"2", "-1", 100,
   [{ s := 0, x := 0, y := 0, hdg := 0, length := 100, kind := OdrRoadGeometryKind.Line }],
   [], [], [⟨0, 0, 1, 0, 0, 0⟩], [], []⟩

/-- A road whose single elevation entry starts at `s = 10`, so stations
before `10` have no preceding entry. -/
def late_elev_road : OdrRoad :=
  ⟨"5", "-1", 100,
   [{ s := 0, x := 0, y := 0, hdg := 0, length := 100, kind := OdrRoadGeometryKind.Line }],
   [⟨10, 5, 0, 0, 0⟩], [], [], [], []⟩

/-- The single-arc plan view of the spec's scenario 3: curvature `0.01`,
start `(0, 0, hdg = 0)`, length `π·50`. -/
def arc_geom : OdrRoadGeometry :=
  { s := 0, x := 0, y := 0, hdg := 0, length := Real.pi * 50,
    kind := OdrRoadGeometryKind.Arc, curvature := some 0.01 }

/-- The arc road of the spec's scenario 3. -/
def arc_road : OdrRoad := ⟨"3", "-1", Real.pi * 50, [arc_geom], [], [], [], [], []⟩

/-- A road with an empty `planView`. -/
def no_pv_road : OdrRoad := ⟨"4", "-1", 10, [], [], [], [], [ex_sec], []⟩

/-- A `solidSolid` road mark of width `0.34` with neither a `<type>`
block nor an `<explicit>` block. -/
def solid_solid_mark : OdrRoadMark :=
  ⟨0, OdrRoadMarkType.SolidSolid, OdrRoadMarkColor.Standard, some 0.34, none, none, none, []⟩

/-- Lane of id `1`, constant width `2`. -/
def perm_lane1 : OdrLane := ⟨1, "driving", [⟨0, 2, 0, 0, 0⟩], []⟩

/-- Lane of id `2`, constant width `3`. -/
def perm_lane2 : OdrLane := ⟨2, "driving", [⟨0, 3, 0, 0, 0⟩], []⟩

/-- A section storing the left lanes in ascending id order. -/
def perm_sec : OdrLaneSection := ⟨0, none, [perm_lane1, perm_lane2], [], ex_center⟩

/-- The same section with the left lanes stored in the opposite order. -/
def perm_sec_rev : OdrLaneSection := ⟨0, none, [perm_lane2, perm_lane1], [], ex_center⟩

/-- A width entry starting only at `s_offset = 5`. -/
def late_width : OdrLaneWidth := ⟨5, 2, 0, 0, 0⟩

/-- A non-center lane with an empty width list. -/
def bare_lane : OdrLane := ⟨-1, "driving", [], []⟩

/-! ### Supporting lemmas -/

theorem lastLE_eq_none_of_forall {α : Type} (key : α → ℝ) (s : ℝ) (l : List α)
    (h : ∀ e ∈ l, s < key e) : lastLE key s l = none := by
  induction l with
  | nil => rfl
  | cons e rest ih =>
    have hr := ih fun x hx => h x (List.mem_cons_of_mem e hx)
    have he : ¬ key e ≤ s := not_le.mpr (h e (List.mem_cons_self e rest))
    simp [lastLE, hr, he]

theorem foldl_append_none (f : ℕ → Option (List ℝ)) (l : List ℕ) :
    l.foldl (fun acc i => acc.bind fun vs => (f i).map fun b => vs ++ b) none = none := by
  induction l with
  | nil => rfl
  | cons i rest ih => simpa using ih

theorem foldl_append_eq (f : ℕ → Option (List ℝ)) :
    ∀ (l : List ℕ) (init : List ℝ),
      l.foldl (fun acc i => acc.bind fun vs => (f i).map fun b => vs ++ b) (some init)
        = (sampleSeq f l).map fun bs => init ++ bs := by
  intro l
  induction l with
  | nil => intro init; simp [sampleSeq]
  | cons i rest ih =>
    intro init
    cases hf : f i with
    | none => simp [sampleSeq, hf, foldl_append_none]
    | some b =>
      have h1 : ((some init).bind fun vs => (f i).map fun b => vs ++ b) = some (init ++ b) := by
        simp [hf]
      rw [List.foldl_cons, h1, ih (init ++ b)]
      simp only [sampleSeq, hf, Option.some_bind]
      cases sampleSeq f rest <;> simp [List.append_assoc]

theorem sampleSeq_spec (f : ℕ → Option (List ℝ)) (c : ℕ)
    (hf : ∀ i b, f i = some b → b.length = c) :
    ∀ (l : List ℕ) (vs : List ℝ), sampleSeq f l = some vs →
      vs.length = c * l.length ∧
      ∀ k, k < l.length → ∃ b, f (l.getD k 0) = some b ∧ (vs.drop (c * k)).take c = b := by
  intro l
  induction l with
  | nil =>
    intro vs h
    simp only [sampleSeq, Option.some_inj] at h
    subst h
    simp
  | cons i rest ih =>
    intro vs h
    simp only [sampleSeq] at h
    cases hfi : f i with
    | none => rw [hfi] at h; simp at h
    | some b =>
      rw [hfi] at h
      cases hrest : sampleSeq f rest with
      | none => rw [hrest] at h; simp at h
      | some bs =>
        rw [hrest] at h
        simp only [Option.some_bind, Option.map_some', Option.some_inj] at h
        subst h
        obtain ⟨hlen, hidx⟩ := ih bs hrest
        have hb := hf i b hfi
        refine ⟨by simp [hb, hlen, List.length_cons]; ring, ?_⟩
        intro k hk
        cases k with
        | zero =>
          refine ⟨b, by simp [hfi], ?_⟩
          rw [Nat.mul_zero, List.drop_zero, ← hb]
          exact List.take_left b bs
        | succ k' =>
          obtain ⟨b', hb', ht⟩ := hidx k' (by simpa using hk)
          refine ⟨b', by simpa using hb', ?_⟩
          rw [show c * (k' + 1) = b.length + c * k' by rw [hb]; ring,
            List.drop_append, ht]

theorem build_sample_eq_some (road : OdrRoad) (sec : OdrLaneSection) (lane : OdrLane)
    (s : ℝ) (b : List ℝ) :
    LaneMeshBuilder.build_sample road sec lane s = some b ↔
      ∃ tb ip op, LaneMeshBuilder.get_lane_t_bounds lane sec road s = some tb ∧
        road.sth_to_xyz s tb.1 0 = some ip ∧ road.sth_to_xyz s tb.2 0 = some op ∧
        b = [ip.x, ip.z, -ip.y, op.x, op.z, -op.y] := by
  simp only [LaneMeshBuilder.build_sample, Option.bind_eq_some, Option.map_eq_some']
  constructor
  · rintro ⟨tb, htb, ip, hip, op, hop, hb⟩
    exact ⟨tb, ip, op, htb, hip, hop, hb.symm⟩
  · rintro ⟨tb, ip, op, htb, hip, hop, hb⟩
    exact ⟨tb, htb, ip, hip, op, hop, hb.symm⟩

theorem build_sample_length (road : OdrRoad) (sec : OdrLaneSection) (lane : OdrLane)
    (s : ℝ) (b : List ℝ) (h : LaneMeshBuilder.build_sample road sec lane s = some b) :
    b.length = 6 := by
  obtain ⟨tb, ip, op, _, _, _, hb⟩ := (build_sample_eq_some road sec lane s b).mp h
  simp [hb]

theorem build_lane_mesh_eq (sample_step : ℝ) (road : OdrRoad) (sec : OdrLaneSection)
    (lane : OdrLane) (s_start s_end : ℝ) (hid : lane.id ≠ 0) :
    LaneMeshBuilder.build_lane_mesh sample_step road sec lane s_start s_end
      = (sampleSeq
          (fun i => LaneMeshBuilder.build_sample road sec lane
            (LaneMeshBuilder.station s_start (s_end - s_start)
              (LaneMeshBuilder.num_samples sample_step (s_end - s_start)) i))
          (List.range (LaneMeshBuilder.num_samples sample_step (s_end - s_start)))).map
          fun vertices =>
            ⟨vertices,
             LaneMeshBuilder.generate_indices
               (LaneMeshBuilder.num_samples sample_step (s_end - s_start)),
             LaneMeshBuilder.calculate_normals vertices
               (LaneMeshBuilder.generate_indices
                 (LaneMeshBuilder.num_samples sample_step (s_end - s_start)))⟩ := by
  unfold LaneMeshBuilder.build_lane_mesh
  rw [if_neg hid]
  simp only [foldl_append_eq]
  cases sampleSeq
      (fun i => LaneMeshBuilder.build_sample road sec lane
        (LaneMeshBuilder.station s_start (s_end - s_start)
          (LaneMeshBuilder.num_samples sample_step (s_end - s_start)) i))
      (List.range (LaneMeshBuilder.num_samples sample_step (s_end - s_start))) <;> simp

theorem generate_indices_length (n : ℕ) :
    (LaneMeshBuilder.generate_indices n).length = 6 * (n - 1) := by
  unfold LaneMeshBuilder.generate_indices
  generalize n - 1 = m
  induction m with
  | zero => rfl
  | succ k ih =>
    rw [List.range_succ, List.flatMap_append, List.length_append, ih]
    simp
    omega

theorem generate_indices_lt (n : ℕ) (idx : ℕ)
    (hidx : idx ∈ LaneMeshBuilder.generate_indices n) : idx < 2 * n := by
  unfold LaneMeshBuilder.generate_indices at hidx
  simp only [List.mem_flatMap, List.mem_range] at hidx
  obtain ⟨i, hi, hmem⟩ := hidx
  simp only [List.mem_cons, List.not_mem_nil, or_false] at hmem
  have hp : (2 : ℕ) ^ 16 = 65536 := by norm_num
  rw [hp] at hmem
  rcases hmem with h | h | h | h | h | h <;> subst h <;> omega

theorem ex_road_sth (s t : ℝ) (hs : 0 ≤ s) :
    ex_road.sth_to_xyz s t 0 = some ⟨10 + s, 20 + t, 0⟩ := by
  simp only [OdrRoad.sth_to_xyz, OdrRoad.eval_reference_line, OdrRoad.eval_elevation,
    OdrRoad.eval_superelevation, ex_road, ex_geom, lastLE, OdrRoadGeometry.eval_at,
    OdrRoadGeometry.eval_line]
  rw [if_pos hs]
  simp [Real.cos_pi_div_two, Real.sin_pi_div_two, Real.tan_zero]

theorem ex_t_bounds (s : ℝ) (hs : 0 ≤ s) :
    LaneMeshBuilder.get_lane_t_bounds ex_lane ex_sec ex_road s = some (0, 1) := by
  simp only [LaneMeshBuilder.get_lane_t_bounds, LaneMeshBuilder.eval_lane_width,
    LaneMeshBuilder.calculate_inner_offset, OdrRoad.eval_lane_offset, ex_lane, ex_sec, ex_road,
    ex_width, ex_center, lastLE]
  rw [show s - 0 = s by ring, if_pos hs]
  norm_num

theorem ex_sample_zero :
    LaneMeshBuilder.build_sample ex_road ex_sec ex_lane 0
      = some [10, 0, -20, 10, 0, -21] := by
  simp only [LaneMeshBuilder.build_sample, ex_t_bounds 0 le_rfl, Option.some_bind,
    ex_road_sth 0 0 le_rfl, ex_road_sth 0 1 le_rfl]
  norm_num

theorem ex_sample_one :
    LaneMeshBuilder.build_sample ex_road ex_sec ex_lane 1
      = some [11, 0, -20, 11, 0, -21] := by
  simp only [LaneMeshBuilder.build_sample, ex_t_bounds 1 zero_le_one, Option.some_bind,
    ex_road_sth 1 0 zero_le_one, ex_road_sth 1 1 zero_le_one]
  norm_num

theorem build_ex :
    LaneMeshBuilder.build_lane_mesh 1 ex_road ex_sec ex_lane 0 1
      = some ⟨ex_verts, [0, 1, 2, 1, 3, 2],
          LaneMeshBuilder.calculate_normals ex_verts [0, 1, 2, 1, 3, 2]⟩ := by
  rw [build_lane_mesh_eq 1 ex_road ex_sec ex_lane 0 1 (by norm_num [ex_lane])]
  have hn : LaneMeshBuilder.num_samples 1 ((1 : ℝ) - 0) = 2 := by
    norm_num [LaneMeshBuilder.num_samples]
  rw [hn]
  have hs0 : LaneMeshBuilder.station 0 ((1 : ℝ) - 0) 2 0 = 0 := by
    norm_num [LaneMeshBuilder.station]
  have hs1 : LaneMeshBuilder.station 0 ((1 : ℝ) - 0) 2 1 = 1 := by
    norm_num [LaneMeshBuilder.station]
  have hidx : LaneMeshBuilder.generate_indices 2 = [0, 1, 2, 1, 3, 2] := by
    norm_num [LaneMeshBuilder.generate_indices, List.range_succ]
  rw [show List.range 2 = [0, 1] by rfl]
  simp only [sampleSeq, hs0, hs1, ex_sample_zero, ex_sample_one, Option.some_bind,
    Option.map_some', hidx]
  norm_num [ex_verts]

theorem getD_range (n k : ℕ) (h : k < n) : (List.range n).getD k 0 = k := by
  rw [List.getD_eq_getElem?_getD, List.getElem?_eq_getElem (by simpa using h)]
  simp

theorem shape_road_sth : shape_road.sth_to_xyz 0 0 0 = some ⟨0, 0, 0⟩ := by
  simp only [OdrRoad.sth_to_xyz, OdrRoad.eval_reference_line, OdrRoad.eval_elevation,
    OdrRoad.eval_superelevation, shape_road, lastLE, OdrRoadGeometry.eval_at,
    OdrRoadGeometry.eval_line]
  norm_num

theorem build_lane_mesh_none_of_sample (sample_step : ℝ) (road : OdrRoad)
    (sec : OdrLaneSection) (lane : OdrLane) (s_start s_end : ℝ) (hid : lane.id ≠ 0)
    (hsample : ∀ s, LaneMeshBuilder.build_sample road sec lane s = none) :
    LaneMeshBuilder.build_lane_mesh sample_step road sec lane s_start s_end = none := by
  rw [build_lane_mesh_eq sample_step road sec lane s_start s_end hid]
  have h2 : 2 ≤ LaneMeshBuilder.num_samples sample_step (s_end - s_start) :=
    le_max_right _ 2
  obtain ⟨k, hk⟩ : ∃ k, LaneMeshBuilder.num_samples sample_step (s_end - s_start) = k + 1 :=
    ⟨LaneMeshBuilder.num_samples sample_step (s_end - s_start) - 1, by omega⟩
  rw [hk, List.range_succ_eq_map]
  simp [sampleSeq, hsample]

/-! ### Claim C1 -/

/-- C1 (amended): for every road and all `(s, t, h)` at which `sthToXyz`
evaluates, the returned `z` equals
`evalProfile(elevations, s) + t·tan(evalProfile(superelevations, s)) + h`
with no lateral-shape contribution: `sth_to_xyz` never consults the
road's `shapes` table, so the claim's `evalShape(s, t)` term is absent. -/
theorem sth_to_xyz_z_no_shape_term (road : OdrRoad) (s t h : ℝ) (v : Vec3)
    (hv : road.sth_to_xyz s t h = some v) :
    v.z = road.eval_elevation s + t * Real.tan (road.eval_superelevation s) + h := by
  unfold OdrRoad.sth_to_xyz at hv
  cases hrl : road.eval_reference_line s with
  | none => rw [hrl] at hv; simp at hv
  | some ph =>
    rw [hrl] at hv
    simp only [Option.map_some', Option.some_inj] at hv
    subst hv
    rfl

/-- Witness for C1's amended theorem at a concrete road and query. -/
theorem sth_to_xyz_z_no_shape_term_witness :
    (⟨0, 0, 0⟩ : Vec3).z
      = shape_road.eval_elevation 0 + 0 * Real.tan (shape_road.eval_superelevation 0) + 0 :=
  sth_to_xyz_z_no_shape_term shape_road 0 0 0 ⟨0, 0, 0⟩ shape_road_sth

/-- C1 counterexample: on a road with a nonzero shape entry
(`a = 1` at `s = 0, t = 0`), the code returns `z = 0` at `(0, 0, 0)`
whereas the claimed sum including §4.5's `evalShape` equals `1`. -/
theorem sth_to_xyz_shape_term_counterexample :
    shape_road.sth_to_xyz 0 0 0 = some ⟨0, 0, 0⟩ ∧
    evalShapeSpec shape_road.shapes 0 0 = 1 ∧
    shape_road.eval_elevation 0 + 0 * Real.tan (shape_road.eval_superelevation 0)
        + evalShapeSpec shape_road.shapes 0 0 + 0 = 1 ∧
    (⟨0, 0, 0⟩ : Vec3).z ≠ 1 := by
  have hshape : evalShapeSpec shape_road.shapes 0 0 = 1 := by
    show evalShapeSpec [⟨0, 0, 1, 0, 0, 0⟩] 0 0 = 1
    unfold evalShapeSpec
    norm_num [lastLE, List.filter, OdrShape.evaluate]
  have hel : shape_road.eval_elevation 0 = 0 := by
    simp [OdrRoad.eval_elevation, shape_road, lastLE]
  have hsup : shape_road.eval_superelevation 0 = 0 := by
    simp [OdrRoad.eval_superelevation, shape_road, lastLE]
  refine ⟨shape_road_sth, hshape, ?_, by norm_num⟩
  rw [hel, hsup, hshape]
  norm_num [Real.tan_zero]

/-! ### Claim C3 -/

/-- C3: with an empty `planView` and a non-center lane, `buildLaneMesh`
reaches the `expect("plan_view is empty")` panic (modelled `none`) on the
first sample instead of returning an empty mesh. -/
theorem build_lane_mesh_empty_plan_view_panics (sample_step : ℝ) (road : OdrRoad)
    (sec : OdrLaneSection) (lane : OdrLane) (s_start s_end : ℝ)
    (hpv : road.plan_view = []) (hid : lane.id ≠ 0) :
    LaneMeshBuilder.build_lane_mesh sample_step road sec lane s_start s_end = none := by
  refine build_lane_mesh_none_of_sample sample_step road sec lane s_start s_end hid ?_
  intro s
  have hsth : ∀ t, road.sth_to_xyz s t 0 = none := by
    intro t
    simp [OdrRoad.sth_to_xyz, OdrRoad.eval_reference_line, hpv, lastLE]
  unfold LaneMeshBuilder.build_sample
  cases htb : LaneMeshBuilder.get_lane_t_bounds lane sec road s with
  | none => rfl
  | some tb => simp [hsth]

/-- Witness for C3 at a concrete empty-planView road. -/
theorem build_lane_mesh_empty_plan_view_panics_witness :
    LaneMeshBuilder.build_lane_mesh 1 no_pv_road ex_sec ex_lane 0 10 = none :=
  build_lane_mesh_empty_plan_view_panics 1 no_pv_road ex_sec ex_lane 0 10 rfl
    (by norm_num [ex_lane])

/-! ### Claim C5 -/

/-- C5 (amended): when no entry precedes the query station, lane-width
evaluation falls back to the first entry, but the elevation,
superelevation and lane-offset profiles return `0` instead. -/
theorem profile_before_first_entry (road : OdrRoad) (s : ℝ)
    (he : ∀ e ∈ road.elevations, s < e.s)
    (hsup : ∀ e ∈ road.superelevations, s < e.s)
    (ho : ∀ e ∈ road.lane_offsets, s < e.s)
    (w0 : OdrLaneWidth) (ws : List OdrLaneWidth) (ds : ℝ)
    (hw : ∀ w ∈ w0 :: ws, ds < w.s_offset) :
    road.eval_elevation s = 0 ∧
    road.eval_superelevation s = 0 ∧
    road.eval_lane_offset s = 0 ∧
    OdrLaneWidth.eval_widths (w0 :: ws) ds = w0.eval (ds - w0.s_offset) ∧
    LaneMeshBuilder.eval_lane_width (w0 :: ws) ds
      = some (w0.a + w0.b * (ds - w0.s_offset) + w0.c * (ds - w0.s_offset) ^ 2
          + w0.d * (ds - w0.s_offset) ^ 3) ∧
    RoadMarkMeshBuilder.eval_lane_width (w0 :: ws) ds
      = w0.a + w0.b * (ds - w0.s_offset) + w0.c * (ds - w0.s_offset) ^ 2
          + w0.d * (ds - w0.s_offset) ^ 3 := by
  have hwn := lastLE_eq_none_of_forall (fun w : OdrLaneWidth => w.s_offset) ds (w0 :: ws) hw
  refine ⟨?_, ?_, ?_, ?_, ?_, ?_⟩
  · unfold OdrRoad.eval_elevation
    rw [lastLE_eq_none_of_forall _ _ _ he]
  · unfold OdrRoad.eval_superelevation
    rw [lastLE_eq_none_of_forall _ _ _ hsup]
  · unfold OdrRoad.eval_lane_offset
    rw [lastLE_eq_none_of_forall _ _ _ ho]
  · unfold OdrLaneWidth.eval_widths
    rw [hwn]
    rfl
  · unfold LaneMeshBuilder.eval_lane_width
    rw [hwn]
    rfl
  · unfold RoadMarkMeshBuilder.eval_lane_width
    rw [hwn]
    rfl

/-- Witness for C5's amended theorem at a concrete road and width list. -/
theorem profile_before_first_entry_witness :
    late_elev_road.eval_elevation 0 = 0 ∧
    late_elev_road.eval_superelevation 0 = 0 ∧
    late_elev_road.eval_lane_offset 0 = 0 ∧
    OdrLaneWidth.eval_widths [late_width] 1 = late_width.eval (1 - late_width.s_offset) ∧
    LaneMeshBuilder.eval_lane_width [late_width] 1
      = some (late_width.a + late_width.b * (1 - late_width.s_offset)
          + late_width.c * (1 - late_width.s_offset) ^ 2
          + late_width.d * (1 - late_width.s_offset) ^ 3) ∧
    RoadMarkMeshBuilder.eval_lane_width [late_width] 1
      = late_width.a + late_width.b * (1 - late_width.s_offset)
          + late_width.c * (1 - late_width.s_offset) ^ 2
          + late_width.d * (1 - late_width.s_offset) ^ 3 :=
  profile_before_first_entry late_elev_road 0
    (by intro e hee; simp [late_elev_road] at hee; subst hee; norm_num)
    (by intro e hee; simp [late_elev_road] at hee)
    (by intro e hee; simp [late_elev_road] at hee)
    late_width [] 1
    (by intro w hww; simp at hww; subst hww; norm_num [late_width])

/-- C5 counterexample: with a single elevation entry at `s = 10`, the
code evaluates station `0` to `0`, not to the first entry's polynomial
value `5`. -/
theorem profile_before_first_entry_counterexample :
    late_elev_road.eval_elevation 0 = 0 ∧
    (5 : ℝ) + 0 * ((0 : ℝ) - 10) + 0 * ((0 : ℝ) - 10) ^ 2 + 0 * ((0 : ℝ) - 10) ^ 3 = 5 ∧
    (0 : ℝ) ≠ 5 := by
  refine ⟨?_, by norm_num, by norm_num⟩
  have h10 : ¬ (10 : ℝ) ≤ 0 := by norm_num
  simp [OdrRoad.eval_elevation, late_elev_road, lastLE, h10]

/-! ### Claim C9 -/

/-- C9 (amended): the guarded evaluators (`OdrLaneWidth::eval_widths`,
`RoadMarkMeshBuilder::eval_lane_width`) return width `0` on an empty
width list, but `LaneMeshBuilder::eval_lane_width` panics on it
(modelled `none`): `buildLaneMesh` still returns the empty mesh for the
center lane (id `0` returns before any width evaluation), yet aborts
when the built lane itself carries an empty width list. -/
theorem empty_widths_evaluation (ds : ℝ) (sample_step : ℝ) (road : OdrRoad)
    (sec : OdrLaneSection) (lane : OdrLane) (s_start s_end : ℝ) :
    OdrLaneWidth.eval_widths [] ds = 0 ∧
    RoadMarkMeshBuilder.eval_lane_width [] ds = 0 ∧
    LaneMeshBuilder.eval_lane_width [] ds = none ∧
    (lane.id = 0 →
      LaneMeshBuilder.build_lane_mesh sample_step road sec lane s_start s_end
        = some ⟨[], [], []⟩) ∧
    (lane.id ≠ 0 → lane.width = [] →
      LaneMeshBuilder.build_lane_mesh sample_step road sec lane s_start s_end = none) := by
  refine ⟨rfl, rfl, rfl, ?_, ?_⟩
  · intro h0
    unfold LaneMeshBuilder.build_lane_mesh
    rw [if_pos h0]
  · intro hid hwidth
    refine build_lane_mesh_none_of_sample sample_step road sec lane s_start s_end hid ?_
    intro s
    unfold LaneMeshBuilder.build_sample LaneMeshBuilder.get_lane_t_bounds
    rw [hwidth]
    rfl

/-- Witness for C9's amended theorem at concrete inputs. -/
theorem empty_widths_evaluation_witness :
    OdrLaneWidth.eval_widths [] 3 = 0 ∧
    RoadMarkMeshBuilder.eval_lane_width [] 3 = 0 ∧
    LaneMeshBuilder.eval_lane_width [] 3 = none ∧
    LaneMeshBuilder.build_lane_mesh 1 ex_road ex_sec ex_center 0 1 = some ⟨[], [], []⟩ ∧
    LaneMeshBuilder.build_lane_mesh 1 ex_road ex_sec bare_lane 0 1 = none := by
  have h := empty_widths_evaluation 3 1 ex_road ex_sec bare_lane 0 1
  have hc := empty_widths_evaluation 3 1 ex_road ex_sec ex_center 0 1
  exact ⟨h.1, h.2.1, h.2.2.1, hc.2.2.2.1 rfl, h.2.2.2.2 (by norm_num [bare_lane]) rfl⟩

/-- C9 counterexample: the lane-mesh builder's width evaluator panics on
the empty width list (modelled `none`) instead of yielding width `0`. -/
theorem empty_widths_lane_builder_counterexample :
    LaneMeshBuilder.eval_lane_width ([] : List OdrLaneWidth) 0 = none ∧
    (none : Option ℝ) ≠ some 0 := ⟨rfl, by simp⟩

/-! ### Claim C10 -/

/-! ### Claim C6 -/

/-- C6: for a non-center lane, `buildLaneMesh` emits exactly `2N`
vertices (`6N` interleaved `f32` components), `6(N−1)` triangle indices
each strictly below `2N`, with `N = max 2 ⌈(s_end − s_start)/step⌉`; for
the center lane all three buffers are empty. -/
theorem build_lane_mesh_topology (sample_step : ℝ) (road : OdrRoad) (sec : OdrLaneSection)
    (lane : OdrLane) (s_start s_end : ℝ) (m : MeshData)
    (hm : LaneMeshBuilder.build_lane_mesh sample_step road sec lane s_start s_end = some m) :
    (lane.id ≠ 0 →
      m.vertices.length
        = 3 * (2 * LaneMeshBuilder.num_samples sample_step (s_end - s_start)) ∧
      m.indices.length
        = 6 * (LaneMeshBuilder.num_samples sample_step (s_end - s_start) - 1) ∧
      ∀ idx ∈ m.indices,
        idx < 2 * LaneMeshBuilder.num_samples sample_step (s_end - s_start)) ∧
    (lane.id = 0 → m.vertices = [] ∧ m.indices = [] ∧ m.normals = []) := by
  constructor
  · intro hid
    rw [build_lane_mesh_eq _ _ _ _ _ _ hid, Option.map_eq_some'] at hm
    obtain ⟨vs, hvs, hmm⟩ := hm
    subst hmm
    obtain ⟨hlen, -⟩ :=
      sampleSeq_spec _ 6 (fun i b h => build_sample_length _ _ _ _ _ h) _ _ hvs
    refine ⟨?_, generate_indices_length _, fun idx hidx => generate_indices_lt _ idx hidx⟩
    show vs.length = _
    rw [hlen, List.length_range]
    ring
  · intro h0
    unfold LaneMeshBuilder.build_lane_mesh at hm
    rw [if_pos h0, Option.some_inj] at hm
    subst hm
    exact ⟨rfl, rfl, rfl⟩

/-- Witness for C6 at a concrete two-sample build. -/
theorem build_lane_mesh_topology_witness :
    ex_verts.length = 3 * (2 * LaneMeshBuilder.num_samples 1 ((1 : ℝ) - 0)) ∧
    ([0, 1, 2, 1, 3, 2] : List ℕ).length
      = 6 * (LaneMeshBuilder.num_samples 1 ((1 : ℝ) - 0) - 1) ∧
    ∀ idx ∈ ([0, 1, 2, 1, 3, 2] : List ℕ),
      idx < 2 * LaneMeshBuilder.num_samples 1 ((1 : ℝ) - 0) :=
  (build_lane_mesh_topology 1 ex_road ex_sec ex_lane 0 1
      ⟨ex_verts, [0, 1, 2, 1, 3, 2],
        LaneMeshBuilder.calculate_normals ex_verts [0, 1, 2, 1, 3, 2]⟩
      build_ex).1 (by norm_num [ex_lane])

/-! ### Claim C4 -/

/-- C4 (amended): every vertex pair emitted by `buildLaneMesh` is the
raw `sthToXyz` world coordinate converted to the Y-up frame
`(x, y, z) → (x, z, −y)` (narrowing to `f32` abstracted over ℝ), with no
map-center subtraction: the six components at sample `k` are exactly the
converted inner/outer boundary points. -/
theorem build_lane_mesh_vertices_uncentered (sample_step : ℝ) (road : OdrRoad)
    (sec : OdrLaneSection) (lane : OdrLane) (s_start s_end : ℝ) (m : MeshData)
    (hid : lane.id ≠ 0)
    (hm : LaneMeshBuilder.build_lane_mesh sample_step road sec lane s_start s_end = some m) :
    ∀ k, k < LaneMeshBuilder.num_samples sample_step (s_end - s_start) →
      ∃ tb ip op,
        LaneMeshBuilder.get_lane_t_bounds lane sec road
          (LaneMeshBuilder.station s_start (s_end - s_start)
            (LaneMeshBuilder.num_samples sample_step (s_end - s_start)) k) = some tb ∧
        road.sth_to_xyz
          (LaneMeshBuilder.station s_start (s_end - s_start)
            (LaneMeshBuilder.num_samples sample_step (s_end - s_start)) k) tb.1 0
          = some ip ∧
        road.sth_to_xyz
          (LaneMeshBuilder.station s_start (s_end - s_start)
            (LaneMeshBuilder.num_samples sample_step (s_end - s_start)) k) tb.2 0
          = some op ∧
        (m.vertices.drop (6 * k)).take 6 = [ip.x, ip.z, -ip.y, op.x, op.z, -op.y] := by
  intro k hk
  rw [build_lane_mesh_eq _ _ _ _ _ _ hid, Option.map_eq_some'] at hm
  obtain ⟨vs, hvs, hmm⟩ := hm
  subst hmm
  obtain ⟨-, hidx⟩ :=
    sampleSeq_spec _ 6 (fun i b h => build_sample_length _ _ _ _ _ h) _ _ hvs
  obtain ⟨b, hb, ht⟩ := hidx k (by simpa [List.length_range] using hk)
  rw [getD_range _ _ hk] at hb
  obtain ⟨tb, ip, op, htb, hip, hop, hbb⟩ := (build_sample_eq_some _ _ _ _ _).mp hb
  refine ⟨tb, ip, op, htb, hip, hop, ?_⟩
  show (vs.drop (6 * k)).take 6 = _
  rw [ht, hbb]

/-- Witness for C4's amended theorem: the first sample of the concrete
build. -/
theorem build_lane_mesh_vertices_uncentered_witness :
    ∃ tb ip op,
      LaneMeshBuilder.get_lane_t_bounds ex_lane ex_sec ex_road
        (LaneMeshBuilder.station 0 ((1 : ℝ) - 0)
          (LaneMeshBuilder.num_samples 1 ((1 : ℝ) - 0)) 0) = some tb ∧
      ex_road.sth_to_xyz
        (LaneMeshBuilder.station 0 ((1 : ℝ) - 0)
          (LaneMeshBuilder.num_samples 1 ((1 : ℝ) - 0)) 0) tb.1 0 = some ip ∧
      ex_road.sth_to_xyz
        (LaneMeshBuilder.station 0 ((1 : ℝ) - 0)
          (LaneMeshBuilder.num_samples 1 ((1 : ℝ) - 0)) 0) tb.2 0 = some op ∧
      (ex_verts.drop (6 * 0)).take 6 = [ip.x, ip.z, -ip.y, op.x, op.z, -op.y] :=
  build_lane_mesh_vertices_uncentered 1 ex_road ex_sec ex_lane 0 1
    ⟨ex_verts, [0, 1, 2, 1, 3, 2],
      LaneMeshBuilder.calculate_normals ex_verts [0, 1, 2, 1, 3, 2]⟩
    (by norm_num [ex_lane]) build_ex 0 (by norm_num [LaneMeshBuilder.num_samples])

/-- C4 counterexample: the map center of the single-road map is
`(10, 20, 0)`, yet the first emitted vertex component is the unshifted
world coordinate `10`, not `10 − center.x = 0`. -/
theorem build_lane_mesh_center_not_subtracted_counterexample :
    OpenDrive.compute_center [ex_road] = ⟨10, 20, 0⟩ ∧
    (LaneMeshBuilder.build_lane_mesh 1 ex_road ex_sec ex_lane 0 1).map MeshData.vertices
      = some ex_verts ∧
    ex_verts.getD 0 0 = 10 ∧
    (10 : ℝ) ≠ 10 - (OpenDrive.compute_center [ex_road]).x := by
  have hcc : OpenDrive.compute_center [ex_road] = ⟨10, 20, 0⟩ := by
    unfold OpenDrive.compute_center
    norm_num [ex_road, ex_geom, f64_max, min_def, max_def]
  refine ⟨hcc, ?_, by norm_num [ex_verts], ?_⟩
  · rw [build_ex]
    rfl
  · rw [hcc]
    norm_num

/-! ### Claim C7 -/

theorem arc_sth_eval : arc_road.sth_to_xyz (Real.pi * 50) 0 0 = some ⟨-100, 100, 0⟩ := by
  have hpi : (0 : ℝ) ≤ Real.pi * 50 := by positivity
  have habs : ¬ (|(0.01 : ℝ)| < 1e-15) := by
    rw [abs_of_pos (by norm_num : (0 : ℝ) < 0.01)]
    norm_num
  simp only [OdrRoad.sth_to_xyz, OdrRoad.eval_reference_line, OdrRoad.eval_elevation,
    OdrRoad.eval_superelevation, arc_road, arc_geom, lastLE, OdrRoadGeometry.eval_at,
    OdrRoadGeometry.eval_arc, OdrRoadGeometry.eval_line, Option.getD_some, Option.or_some,
    Option.map_some']
  rw [if_pos hpi]
  simp only [Option.or_some, Option.map_some', Option.getD_some]
  rw [if_neg habs]
  rw [show (0 : ℝ) + Real.pi / 2 = Real.pi / 2 by ring]
  rw [show Real.pi / 2 + (Real.pi * 50 - 0) * 0.01 = Real.pi by ring]
  simp only [Real.cos_pi_div_two, Real.sin_pi_div_two, Real.cos_pi, Real.sin_pi]
  norm_num [Real.tan_zero]

theorem arc_ref_hdg :
    (arc_road.eval_reference_line (Real.pi * 50)).map PosHdg.hdg = some (Real.pi / 2) := by
  have hpi : (0 : ℝ) ≤ Real.pi * 50 := by positivity
  have habs : ¬ (|(0.01 : ℝ)| < 1e-15) := by
    rw [abs_of_pos (by norm_num : (0 : ℝ) < 0.01)]
    norm_num
  simp only [OdrRoad.eval_reference_line, arc_road, arc_geom, lastLE,
    OdrRoadGeometry.eval_at, OdrRoadGeometry.eval_arc, OdrRoadGeometry.eval_line,
    Option.getD_some]
  rw [if_pos hpi]
  simp only [Option.or_some, Option.map_some', Option.getD_some]
  rw [if_neg habs]
  simp only [Option.some_inj]
  show (0 : ℝ) + (Real.pi * 50 - 0) * 0.01 = Real.pi / 2
  ring

/-- C7 counterexample: on the single-arc road (κ = 0.01, start
`(0, 0, hdg = 0)`, length `π·50`), `sthToXyz(π·50, 0, 0)` evaluates to
`(−100, 100, 0)` with reference heading `π/2` — not the claimed planar
endpoint `(0, 100)` with heading `π`. -/
theorem arc_endpoint_counterexample :
    arc_road.sth_to_xyz (Real.pi * 50) 0 0 = some ⟨-100, 100, 0⟩ ∧
    (-100 : ℝ) ≠ 0 ∧
    (arc_road.eval_reference_line (Real.pi * 50)).map PosHdg.hdg = some (Real.pi / 2) ∧
    Real.pi / 2 ≠ Real.pi := by
  have hp := Real.pi_pos
  exact ⟨arc_sth_eval, by norm_num, arc_ref_hdg, by intro h; nlinarith⟩

/-- C7 (amended): the traversed angle of the arc is
`length·κ = π·50·0.01 = π/2` (a quarter turn), and the code's `eval_arc`
places the endpoint at `(−100, 100)` with heading `π/2`. -/
theorem arc_endpoint_amended :
    arc_road.sth_to_xyz (Real.pi * 50) 0 0 = some ⟨-100, 100, 0⟩ ∧
    (arc_road.eval_reference_line (Real.pi * 50)).map PosHdg.hdg = some (Real.pi / 2) ∧
    (Real.pi * 50 - 0) * 0.01 = Real.pi / 2 :=
  ⟨arc_sth_eval, arc_ref_hdg, by ring⟩

/-! ### Claim C8 -/

/-- C8: the cumulative inner-offset computation — both the section-level
one and the lane-mesh builder's, and hence the derived
`(t_inner, t_outer)` pair — is invariant under any permutation of the
stored `left` / `right` lane vectors: the accumulation is filtered by
lane id, not by list position. -/
theorem inner_offset_perm_invariant (sec1 sec2 : OdrLaneSection)
    (hL : sec1.left.Perm sec2.left) (hR : sec1.right.Perm sec2.right)
    (hs : sec1.s = sec2.s) (lane_id : ℤ) (s : ℝ) (lane : OdrLane) (road : OdrRoad) :
    sec1.calculate_inner_offset lane_id s = sec2.calculate_inner_offset lane_id s ∧
    LaneMeshBuilder.calculate_inner_offset lane_id sec1 s
      = LaneMeshBuilder.calculate_inner_offset lane_id sec2 s ∧
    LaneMeshBuilder.get_lane_t_bounds lane sec1 road s
      = LaneMeshBuilder.get_lane_t_bounds lane sec2 road s := by
  have h1 : ∀ lid : ℤ,
      sec1.calculate_inner_offset lid s = sec2.calculate_inner_offset lid s := by
    intro lid
    unfold OdrLaneSection.calculate_inner_offset
    rw [hs]
    by_cases hpos : lid > 0
    · rw [if_pos hpos, if_pos hpos]
      refine hL.foldl_eq' ?_ 0
      intro x _hx y _hy z
      by_cases cx : x.id > 0 ∧ x.id < lid <;> by_cases cy : y.id > 0 ∧ y.id < lid <;>
        simp [cx, cy, add_right_comm]
    · rw [if_neg hpos, if_neg hpos]
      by_cases hneg : lid < 0
      · rw [if_pos hneg, if_pos hneg]
        refine hR.foldl_eq' ?_ 0
        intro x _hx y _hy z
        by_cases cx : x.id < 0 ∧ x.id > lid <;> by_cases cy : y.id < 0 ∧ y.id > lid <;>
          simp [cx, cy, sub_right_comm]
      · rw [if_neg hneg, if_neg hneg]
  have h2 : ∀ lid : ℤ,
      LaneMeshBuilder.calculate_inner_offset lid sec1 s
        = LaneMeshBuilder.calculate_inner_offset lid sec2 s := by
    intro lid
    unfold LaneMeshBuilder.calculate_inner_offset
    rw [hs]
    by_cases hpos : lid > 0
    · rw [if_pos hpos, if_pos hpos]
      refine hL.foldl_eq' ?_ (some 0)
      intro x _hx y _hy z
      by_cases cx : x.id > 0 ∧ x.id < lid <;> by_cases cy : y.id > 0 ∧ y.id < lid <;>
        simp only [cx, cy, if_true, if_false, ite_true, ite_false]
      cases z with
      | none => rfl
      | some o =>
        cases hEx : LaneMeshBuilder.eval_lane_width x.width (s - sec2.s) with
        | none =>
          cases hEy : LaneMeshBuilder.eval_lane_width y.width (s - sec2.s) <;>
            simp [hEx, hEy]
        | some a =>
          cases hEy : LaneMeshBuilder.eval_lane_width y.width (s - sec2.s) <;>
            simp [hEx, hEy, add_right_comm]
    · rw [if_neg hpos, if_neg hpos]
      by_cases hneg : lid < 0
      · rw [if_pos hneg, if_pos hneg]
        refine hR.foldl_eq' ?_ (some 0)
        intro x _hx y _hy z
        by_cases cx : x.id < 0 ∧ x.id > lid <;> by_cases cy : y.id < 0 ∧ y.id > lid <;>
          simp only [cx, cy, if_true, if_false, ite_true, ite_false]
        cases z with
        | none => rfl
        | some o =>
          cases hEx : LaneMeshBuilder.eval_lane_width x.width (s - sec2.s) with
          | none =>
            cases hEy : LaneMeshBuilder.eval_lane_width y.width (s - sec2.s) <;>
              simp [hEx, hEy]
          | some a =>
            cases hEy : LaneMeshBuilder.eval_lane_width y.width (s - sec2.s) <;>
              simp [hEx, hEy, sub_right_comm]
      · rw [if_neg hneg, if_neg hneg]
  refine ⟨h1 lane_id, h2 lane_id, ?_⟩
  unfold LaneMeshBuilder.get_lane_t_bounds
  rw [hs, h2 lane.id]

/-- Witness for C8 at a concrete swapped pair of left lanes. -/
theorem inner_offset_perm_invariant_witness :
    perm_sec.calculate_inner_offset 2 7 = perm_sec_rev.calculate_inner_offset 2 7 ∧
    LaneMeshBuilder.calculate_inner_offset 2 perm_sec 7
      = LaneMeshBuilder.calculate_inner_offset 2 perm_sec_rev 7 ∧
    LaneMeshBuilder.get_lane_t_bounds perm_lane2 perm_sec ex_road 7
      = LaneMeshBuilder.get_lane_t_bounds perm_lane2 perm_sec_rev ex_road 7 :=
  inner_offset_perm_invariant perm_sec perm_sec_rev
    (List.Perm.swap perm_lane2 perm_lane1 []) (List.Perm.refl []) rfl 2 7 perm_lane2 ex_road

/-! ### Claim C10 -/

/-- C10: with neither a `<type>` nor an `<explicit>` block, the default
pattern for a `solidSolid` mark of width `0.34` is exactly two lines at
`tOffset = ∓(0.17 + 0.05)`, each of width `0.17`, each solid
(`space = 0`, the `f64::MAX` sentinel length making the segment builder
clip them to the mark's end). -/
theorem solid_solid_default_lines :
    solid_solid_mark.explicit = none ∧
    solid_solid_mark.type_detail = none ∧
    RoadMarkMeshBuilder.get_default_lines_for_type solid_solid_mark
      = [⟨-(0.17 + 0.05), f64_max, 0, 0.17⟩, ⟨0.17 + 0.05, f64_max, 0, 0.17⟩] := by
  refine ⟨rfl, rfl, ?_⟩
  norm_num [RoadMarkMeshBuilder.get_default_lines_for_type, solid_solid_mark,
    RoadMarkMeshBuilder.DEFAULT_DOUBLE_LINE_GAP]

end
